import Mathlib

/-!
# OHOS external texture adapter (`ohos_external_texture_gl.cpp`)

A shallow embedding of `flutter::OHOSExternalTextureGL`.

* The object's fields become the structure `OHOSExternalTextureGL`.
* Every member function becomes a function from the state before the call to the
  state after it, paired with the list of calls it issued to the outside world
  (GL, the `OH_NativeImage` / `OH_NativeWindow` API, Skia, the log), in program order.
* Values the outside world hands back (the name written by `glGenTextures`, return
  codes, the 16 matrix entries, whether Skia produced an image) are inputs of the
  call, collected in `PaintEnv` and `GeometryEnv`.
* `SkScalar` is taken to be `ℚ`: the arithmetic is exact.
* The arguments `context` and `sampling` of `Paint` only feed the Skia calls; they are left
  out, and the Skia and canvas calls themselves are recorded in the trace.
-/

namespace flutter

/-! ## Data model -/

/-- The enum `AttachmentState` of the header. -/
inductive AttachmentState where
  | uninitialized
  | attached
  | detached
  deriving DecidableEq, Repr

/-- A 3x3 matrix in Skia's row-major order
`[scaleX, skewX, transX, skewY, scaleY, transY, persp0, persp1, persp2]`. -/
structure SkMatrix where
  sx : ℚ
  kx : ℚ
  tx : ℚ
  ky : ℚ
  sy : ℚ
  ty : ℚ
  p0 : ℚ
  p1 : ℚ
  p2 : ℚ
  deriving DecidableEq

namespace SkMatrix

/-- The matrix `SkMatrix::I()`; it is also what the default constructor `SkMatrix()` builds. -/
def I : SkMatrix := ⟨1, 0, 0, 0, 1, 0, 0, 0, 1⟩

/-- The call `SkMatrix::set9`: install nine entries given in row-major order. -/
def set9 (a0 a1 a2 a3 a4 a5 a6 a7 a8 : ℚ) : SkMatrix := ⟨a0, a1, a2, a3, a4, a5, a6, a7, a8⟩

/-- The test `SkMatrix::isIdentity`. -/
def isIdentity (a : SkMatrix) : Bool := decide (a = I)

/-- Determinant of the 3x3 matrix. -/
def det (a : SkMatrix) : ℚ :=
  a.sx * (a.sy * a.p2 - a.ty * a.p1) - a.kx * (a.ky * a.p2 - a.ty * a.p0)
    + a.tx * (a.ky * a.p1 - a.sy * a.p0)

/-- Matrix product `a * b`. -/
def mul (a b : SkMatrix) : SkMatrix :=
  ⟨a.sx * b.sx + a.kx * b.ky + a.tx * b.p0,
   a.sx * b.kx + a.kx * b.sy + a.tx * b.p1,
   a.sx * b.tx + a.kx * b.ty + a.tx * b.p2,
   a.ky * b.sx + a.sy * b.ky + a.ty * b.p0,
   a.ky * b.kx + a.sy * b.sy + a.ty * b.p1,
   a.ky * b.tx + a.sy * b.ty + a.ty * b.p2,
   a.p0 * b.sx + a.p1 * b.ky + a.p2 * b.p0,
   a.p0 * b.kx + a.p1 * b.sy + a.p2 * b.p1,
   a.p0 * b.tx + a.p1 * b.ty + a.p2 * b.p2⟩

/-- Apply the matrix to a homogeneous vector `(x, y, w)`; a point of the plane is `(x, y, 1)`. -/
def mapHomogeneous (a : SkMatrix) (v : ℚ × ℚ × ℚ) : ℚ × ℚ × ℚ :=
  (a.sx * v.1 + a.kx * v.2.1 + a.tx * v.2.2,
   a.ky * v.1 + a.sy * v.2.1 + a.ty * v.2.2,
   a.p0 * v.1 + a.p1 * v.2.1 + a.p2 * v.2.2)

/-- Modelled from the spec: `SkMatrix::invert(SkMatrix* inverse)` belongs to Skia and is not
under `src/`. The spec (section 4.3, step 3) says the 3x3 matrix is inverted and that the
inversion fails on a singular matrix. In exact arithmetic that is: when the determinant is
zero the call returns `false` and does not write through `inverse` (the second component is
the value `inverse` already held); otherwise it returns `true` and writes the adjugate divided
by the determinant. -/
def invert (a : SkMatrix) (inverse : SkMatrix) : Bool × SkMatrix :=
  if a.det = 0 then (false, inverse)
  else
    (true,
     ⟨(a.sy * a.p2 - a.ty * a.p1) / a.det,
      (a.tx * a.p1 - a.kx * a.p2) / a.det,
      (a.kx * a.ty - a.tx * a.sy) / a.det,
      (a.ty * a.p0 - a.ky * a.p2) / a.det,
      (a.sx * a.p2 - a.tx * a.p0) / a.det,
      (a.tx * a.ky - a.sx * a.ty) / a.det,
      (a.ky * a.p1 - a.sy * a.p0) / a.det,
      (a.kx * a.p0 - a.sx * a.p1) / a.det,
      (a.sx * a.sy - a.kx * a.ky) / a.det⟩)

end SkMatrix

/-- The rectangle `SkRect`, by its four edges. -/
structure SkRect where
  fLeft : ℚ
  fTop : ℚ
  fRight : ℚ
  fBottom : ℚ
  deriving DecidableEq

namespace SkRect

def x (r : SkRect) : ℚ := r.fLeft

def y (r : SkRect) : ℚ := r.fTop

def width (r : SkRect) : ℚ := r.fRight - r.fLeft

def height (r : SkRect) : ℚ := r.fBottom - r.fTop

/-- The rectangle `SkRect::MakeWH(w, h)`. -/
def MakeWH (w h : ℚ) : SkRect := ⟨0, 0, w, h⟩

end SkRect

/-- The operation codes of `OH_NativeWindow_NativeWindowHandleOpt` used by the adapter. -/
inductive NativeWindowOperation where
  | SET_BUFFER_GEOMETRY
  | SET_TIMEOUT
  deriving DecidableEq, Repr

/-- One call issued by the adapter to the outside world. A `OH_NativeImage*` is an
`Option Nat`, `none` being `nullptr`; a GL texture name is a `Nat`. -/
inductive Call where
  /-- Any `FML_LOG` / `FML_DLOG` line. -/
  | log
  /-- The call `glGenTextures(1, &texture_name_)`, with the name it wrote. -/
  | glGenTextures (name : Nat)
  /-- The call `glDeleteTextures(1, &texture_name_)`, with the name it was given. -/
  | glDeleteTextures (name : Nat)
  | OH_NativeImage_AttachContext (image : Option Nat) (name : Nat)
  | OH_NativeImage_DetachContext (image : Option Nat)
  | OH_NativeImage_UpdateSurfaceImage (image : Option Nat)
  | OH_NativeImage_GetTransformMatrixV2 (image : Option Nat)
  | OH_NativeImage_UnsetOnFrameAvailableListener (image : Option Nat)
  | OH_NativeImage_Destroy (image : Option Nat)
  | OH_NativeImage_AcquireNativeWindow (image : Option Nat)
  | OH_NativeWindow_NativeWindowHandleOpt (code : NativeWindowOperation) (args : List Int)
  /-- The call `SkImage::MakeFromTexture` on a backend texture wrapping the given name. -/
  | MakeFromTexture (name : Nat)
  /-- Construction of `SkAutoCanvasRestore(canvas, true)`: saves the canvas. -/
  | canvasSave
  | canvasTranslate (dx dy : ℚ)
  | canvasScale (sx sy : ℚ)
  /-- The call `image->makeShader(kRepeat, kRepeat, sampling, transform)`. -/
  | makeShader (localMatrix : SkMatrix)
  | canvasDrawRect (rect : SkRect)
  | canvasDrawImage (left top : ℚ)
  /-- Destruction of the `SkAutoCanvasRestore`: restores the canvas. -/
  | canvasRestore
  deriving DecidableEq

/-- The fields of `class OHOSExternalTextureGL`. -/
structure OHOSExternalTextureGL where
  /-- The id handed to the `Texture` base class. -/
  id : Int
  state_ : AttachmentState
  new_frame_ready_ : Bool
  texture_name_ : Nat
  native_image_ : Option Nat
  transform : SkMatrix
  deriving DecidableEq

/-- What the outside world answers during one `Paint` call. -/
structure PaintEnv where
  /-- The name `glGenTextures` writes into `texture_name_`. -/
  genName : Nat
  /-- Return code of `OH_NativeImage_AttachContext`. -/
  attachRet : Int
  /-- Return code of `OH_NativeImage_UpdateSurfaceImage`. -/
  updateRet : Int
  /-- Return code of `OH_NativeImage_GetTransformMatrixV2`. -/
  matrixRet : Int
  /-- The array `m[16]` after `OH_NativeImage_GetTransformMatrixV2`. -/
  m : Fin 16 → ℚ
  /-- Whether `SkImage::MakeFromTexture` returned a non-null image. -/
  imageOk : Bool

/-- What the outside world answers during one `setTextureBufferSize` call. -/
structure GeometryEnv where
  /-- The window returned by `OH_NativeImage_AcquireNativeWindow`, `none` being `nullptr`. -/
  nativeWindow : Option Nat
  /-- Return code of the `SET_BUFFER_GEOMETRY` call. -/
  geometryRet : Int
  /-- Return code of the `SET_TIMEOUT` call. -/
  timeoutRet : Int

/-! ## Member functions -/

namespace OHOSExternalTextureGL

/-- The constructor: only the id and the native image come from the caller. -/
def new (id : Int) (native_image : Option Nat) : OHOSExternalTextureGL :=
  { id := id
    state_ := AttachmentState.uninitialized
    new_frame_ready_ := false
    texture_name_ := 0
    native_image_ := native_image
    transform := SkMatrix.I }

/-- The destructor `~OHOSExternalTextureGL`. -/
def destructor (s : OHOSExternalTextureGL) : List Call :=
  [Call.log] ++
    (if s.state_ = AttachmentState.attached then [Call.glDeleteTextures s.texture_name_] else [])

def Attach (s : OHOSExternalTextureGL) (env : PaintEnv) : List Call :=
  [Call.log, Call.OH_NativeImage_AttachContext s.native_image_ s.texture_name_] ++
    (if env.attachRet ≠ 0 then [Call.log] else [])

def Detach (s : OHOSExternalTextureGL) : List Call :=
  [Call.log, Call.OH_NativeImage_DetachContext s.native_image_]

/-- The local `matrix3` of `UpdateTransform` after `set9`: the ohos 4x4 matrix `m`
reduced to a skia 3x3 matrix. -/
def matrix3 (m : Fin 16 → ℚ) : SkMatrix :=
  SkMatrix.set9 (m 0) (m 4) (m 12)
                (m 1) (m 5) (m 13)
                (m 3) (m 7) (m 15)

def UpdateTransform (s : OHOSExternalTextureGL) (env : PaintEnv) :
    OHOSExternalTextureGL × List Call :=
  let fetch := [Call.OH_NativeImage_GetTransformMatrixV2 s.native_image_] ++
    (if env.matrixRet ≠ 0 then [Call.log] else [])
  -- transform.set9(matrix3)
  let s1 := { s with transform := matrix3 env.m }
  -- SkMatrix inverted; transform.invert(&inverted)
  let r := s1.transform.invert SkMatrix.I
  -- transform = inverted
  ({ s1 with transform := r.2 }, fetch ++ (if r.1 = false then [Call.log] else []))

def Update (s : OHOSExternalTextureGL) (env : PaintEnv) : OHOSExternalTextureGL × List Call :=
  if s.native_image_ = none then (s, [Call.log, Call.log])
  else if env.updateRet ≠ 0 then
    (s, [Call.log, Call.OH_NativeImage_UpdateSurfaceImage s.native_image_, Call.log])
  else
    let r := UpdateTransform s env
    (r.1, [Call.log, Call.OH_NativeImage_UpdateSurfaceImage s.native_image_] ++ r.2)

/-- The tail of `Paint`, from the `GrGLTextureInfo` line on: wrap the texture and draw it. -/
def draw (s : OHOSExternalTextureGL) (env : PaintEnv) (bounds : SkRect) : List Call :=
  [Call.MakeFromTexture s.texture_name_] ++
    (if env.imageOk then
      [Call.canvasSave,
       Call.canvasTranslate bounds.x (bounds.y + bounds.height),
       Call.canvasScale bounds.width (-bounds.height)] ++
      (if !s.transform.isIdentity then
        [Call.makeShader s.transform, Call.canvasDrawRect (SkRect.MakeWH 1 1)]
       else [Call.canvasDrawImage 0 0]) ++
      [Call.canvasRestore]
     else [])

def Paint (s : OHOSExternalTextureGL) (env : PaintEnv) (bounds : SkRect) (freeze : Bool) :
    OHOSExternalTextureGL × List Call :=
  if s.state_ = AttachmentState.detached then (s, [Call.log])
  else
    let r1 : OHOSExternalTextureGL × List Call :=
      if s.state_ = AttachmentState.uninitialized then
        let s1 := { s with texture_name_ := env.genName }
        ({ s1 with state_ := AttachmentState.attached },
         [Call.glGenTextures env.genName] ++ Attach s1 env)
      else (s, [])
    let r2 : OHOSExternalTextureGL × List Call :=
      if (!freeze && r1.1.new_frame_ready_) = true then
        let u := Update r1.1 env
        ({ u.1 with new_frame_ready_ := false }, r1.2 ++ u.2)
      else r1
    (r2.1, r2.2 ++ draw r2.1 env bounds)

def OnGrContextCreated (s : OHOSExternalTextureGL) : OHOSExternalTextureGL × List Call :=
  ({ s with state_ := AttachmentState.uninitialized }, [Call.log])

def OnGrContextDestroyed (s : OHOSExternalTextureGL) : OHOSExternalTextureGL × List Call :=
  ({ s with state_ := AttachmentState.detached },
   [Call.log] ++
     (if s.state_ = AttachmentState.attached then
        Detach s ++ [Call.glDeleteTextures s.texture_name_]
      else []))

def MarkNewFrameAvailable (s : OHOSExternalTextureGL) : OHOSExternalTextureGL × List Call :=
  ({ s with new_frame_ready_ := true }, [Call.log])

def OnTextureUnregistered (s : OHOSExternalTextureGL) : OHOSExternalTextureGL × List Call :=
  if s.native_image_ ≠ none then
    ({ s with native_image_ := none },
     [Call.log,
      Call.OH_NativeImage_UnsetOnFrameAvailableListener s.native_image_,
      Call.OH_NativeImage_Destroy s.native_image_])
  else (s, [Call.log])

def setTextureBufferSize (s : OHOSExternalTextureGL) (env : GeometryEnv) (width height : Int) :
    OHOSExternalTextureGL × List Call :=
  if env.nativeWindow = none then
    (s, [Call.OH_NativeImage_AcquireNativeWindow s.native_image_, Call.log])
  else if env.geometryRet ≠ 0 then
    (s, [Call.OH_NativeImage_AcquireNativeWindow s.native_image_,
         Call.OH_NativeWindow_NativeWindowHandleOpt
           NativeWindowOperation.SET_BUFFER_GEOMETRY [width, height],
         Call.log])
  else if env.timeoutRet ≠ 0 then
    (s, [Call.OH_NativeImage_AcquireNativeWindow s.native_image_,
         Call.OH_NativeWindow_NativeWindowHandleOpt
           NativeWindowOperation.SET_BUFFER_GEOMETRY [width, height],
         Call.OH_NativeWindow_NativeWindowHandleOpt NativeWindowOperation.SET_TIMEOUT [60],
         Call.log])
  else
    (s, [Call.OH_NativeImage_AcquireNativeWindow s.native_image_,
         Call.OH_NativeWindow_NativeWindowHandleOpt
           NativeWindowOperation.SET_BUFFER_GEOMETRY [width, height],
         Call.OH_NativeWindow_NativeWindowHandleOpt NativeWindowOperation.SET_TIMEOUT [60]])

end OHOSExternalTextureGL

/-! ## Sequences of calls on one adapter -/

/-- One call of the renderer-facing interface, with what the outside world answers. -/
inductive Op where
  | Paint (env : PaintEnv) (bounds : SkRect) (freeze : Bool)
  | OnGrContextCreated
  | OnGrContextDestroyed
  | MarkNewFrameAvailable
  | OnTextureUnregistered
  | setTextureBufferSize (env : GeometryEnv) (width height : Int)

/-- Perform one call on the adapter. -/
def Op.apply (s : OHOSExternalTextureGL) : Op → OHOSExternalTextureGL × List Call
  | Op.Paint env bounds freeze => s.Paint env bounds freeze
  | Op.OnGrContextCreated => s.OnGrContextCreated
  | Op.OnGrContextDestroyed => s.OnGrContextDestroyed
  | Op.MarkNewFrameAvailable => s.MarkNewFrameAvailable
  | Op.OnTextureUnregistered => s.OnTextureUnregistered
  | Op.setTextureBufferSize env width height => s.setTextureBufferSize env width height

/-- Perform the calls in order; the traces are concatenated. -/
def run (s : OHOSExternalTextureGL) : List Op → OHOSExternalTextureGL × List Call
  | [] => (s, [])
  | op :: ops => ((run (op.apply s).1 ops).1, (op.apply s).2 ++ (run (op.apply s).1 ops).2)

/-- The whole trace of an adapter: construction, the calls, and the destructor when
`destroyed` is set. -/
def lifetime (id : Int) (native_image : Option Nat) (ops : List Op) (destroyed : Bool) :
    List Call :=
  (run (OHOSExternalTextureGL.new id native_image) ops).2 ++
    (if destroyed then (run (OHOSExternalTextureGL.new id native_image) ops).1.destructor
     else [])

/-- The trace of `n` consecutive `OnTextureUnregistered` calls, and the state after them. -/
def unregisterTimes (s : OHOSExternalTextureGL) : Nat → OHOSExternalTextureGL × List Call
  | 0 => (s, [])
  | n + 1 =>
    ((unregisterTimes s.OnTextureUnregistered.1 n).1,
     s.OnTextureUnregistered.2 ++ (unregisterTimes s.OnTextureUnregistered.1 n).2)

/-! ## Reading a trace -/

/-- The trace without its log lines. -/
def externalCalls (tr : List Call) : List Call :=
  tr.filter (fun c => decide (c ≠ Call.log))

def Call.isGen : Call → Bool
  | Call.glGenTextures _ => true
  | _ => false

def Call.isDelete : Call → Bool
  | Call.glDeleteTextures _ => true
  | _ => false

/-- A pull: the frame update or the transform-matrix fetch. -/
def Call.isPull : Call → Bool
  | Call.OH_NativeImage_UpdateSurfaceImage _ => true
  | Call.OH_NativeImage_GetTransformMatrixV2 _ => true
  | _ => false

/-- Number of `glGenTextures` calls in a trace. -/
def allocations (tr : List Call) : Nat := tr.countP Call.isGen

/-- Number of `glDeleteTextures` calls in a trace. -/
def releases (tr : List Call) : Nat := tr.countP Call.isDelete

/-- The GL texture-name calls of a trace, in order. -/
def glEvents (tr : List Call) : List Call :=
  tr.filter (fun c => c.isGen || c.isDelete)

/-- The names written by the `glGenTextures` calls of a trace, in order. -/
def genNames : List Call → List Nat
  | [] => []
  | Call.glGenTextures n :: tr => n :: genNames tr
  | _ :: tr => genNames tr

/-- Number of texture names the adapter holds that it would release: one when attached. -/
def live (s : OHOSExternalTextureGL) : Nat :=
  if s.state_ = AttachmentState.attached then 1 else 0

/-- Walk a trace with the names allocated and released before it: every `glDeleteTextures`
must name an allocated name that is not yet released. -/
def releasesValid (allocated released : List Nat) : List Call → Bool
  | [] => true
  | Call.glGenTextures n :: tr => releasesValid (n :: allocated) released tr
  | Call.glDeleteTextures n :: tr =>
    decide (n ∈ allocated) && decide (n ∉ released) && releasesValid allocated (n :: released) tr
  | _ :: tr => releasesValid allocated released tr

/-- The name written by the last `glGenTextures` call of a trace, or `d` when the trace has
none. -/
def lastGenName (d : Nat) : List Call → Nat
  | [] => d
  | Call.glGenTextures n :: tr => lastGenName n tr
  | _ :: tr => lastGenName d tr

/-- No `OnGrContextCreated` and no `OnGrContextDestroyed` of the sequence arrives while the
adapter is attached: once attached, the adapter stays attached. -/
def noContextCallWhileAttached (s : OHOSExternalTextureGL) : List Op → Bool
  | [] => true
  | Op.OnGrContextCreated :: ops =>
    decide (s.state_ ≠ AttachmentState.attached) &&
      noContextCallWhileAttached (Op.OnGrContextCreated.apply s).1 ops
  | Op.OnGrContextDestroyed :: ops =>
    decide (s.state_ ≠ AttachmentState.attached) &&
      noContextCallWhileAttached (Op.OnGrContextDestroyed.apply s).1 ops
  | op :: ops => noContextCallWhileAttached (op.apply s).1 ops

/-- The calls `Paint`, `OnGrContextCreated` and `OnGrContextDestroyed`. -/
def Op.isContextCall : Op → Bool
  | Op.Paint _ _ _ => true
  | Op.OnGrContextCreated => true
  | Op.OnGrContextDestroyed => true
  | _ => false

/-- In a `Paint`, `glGenTextures` writes a non-zero name. -/
def Op.genNonZero : Op → Bool
  | Op.Paint env _ _ => decide (env.genName ≠ 0)
  | _ => true

/-- No `OnGrContextCreated` of the sequence arrives while the adapter is attached. -/
def noCreateWhileAttached (s : OHOSExternalTextureGL) : List Op → Bool
  | [] => true
  | Op.OnGrContextCreated :: ops =>
    decide (s.state_ ≠ AttachmentState.attached) &&
      noCreateWhileAttached (Op.OnGrContextCreated.apply s).1 ops
  | op :: ops => noCreateWhileAttached (op.apply s).1 ops

/-! ## Concrete inputs -/

/-- The platform matrix of a 90-degree rotation about the centre of the unit square,
`x' = 1 - y`, `y' = x`: entries `m[1] = m[10] = m[12] = m[15] = 1`, `m[4] = -1`, the rest `0`. -/
def rotate90 : Fin 16 → ℚ := fun i =>
  if i = 1 then 1 else if i = 4 then -1 else if i = 10 then 1 else if i = 12 then 1
  else if i = 15 then 1 else 0

/-- The array `m` as `float m[16] = { 0.0f }` leaves it. -/
def zeros16 : Fin 16 → ℚ := fun _ => 0

/-- An environment in which every platform call succeeds, `glGenTextures` writes `name`
and the producer reports the matrix `m`. -/
def envOk (name : Nat) (m : Fin 16 → ℚ) : PaintEnv :=
  { genName := name, attachRet := 0, updateRet := 0, matrixRet := 0, m := m, imageOk := true }

/-- As `envOk`, but `OH_NativeImage_UpdateSurfaceImage` fails with code `-1`. -/
def envPullFails (name : Nat) : PaintEnv :=
  { genName := name, attachRet := 0, updateRet := -1, matrixRet := 0, m := zeros16,
    imageOk := true }

def unitRect : SkRect := SkRect.MakeWH 1 1

/-- A uniform scale by two: a transform that is not the identity. -/
def scale2 : SkMatrix := ⟨2, 0, 0, 0, 2, 0, 0, 0, 1⟩

/-- An attached adapter with texture name 5, a pending frame and the transform `scale2`. -/
def attachedDirty : OHOSExternalTextureGL :=
  { id := 7, state_ := AttachmentState.attached, new_frame_ready_ := true,
    texture_name_ := 5, native_image_ := some 1, transform := scale2 }

/-- A detached adapter. -/
def detachedAdapter : OHOSExternalTextureGL :=
  { attachedDirty with state_ := AttachmentState.detached }

/-- Paint, a context creation without a destruction before it, paint again. -/
def recreateWhileAttached : List Op :=
  [Op.Paint (envOk 5 zeros16) unitRect false, Op.OnGrContextCreated,
   Op.Paint (envOk 6 zeros16) unitRect false]

/-- Paint, then the context is destroyed. -/
def paintThenDestroy : List Op :=
  [Op.Paint (envOk 5 zeros16) unitRect false, Op.OnGrContextDestroyed]

/-- Context created, paint, context destroyed, a paint in between, context created again,
paint: only the three context calls, and no creation while attached. -/
def contextCycle : List Op :=
  [Op.OnGrContextCreated, Op.Paint (envOk 5 zeros16) unitRect false, Op.OnGrContextDestroyed,
   Op.Paint (envOk 0 zeros16) unitRect false, Op.OnGrContextCreated,
   Op.Paint (envOk 6 zeros16) unitRect true]

/-- One context: created, paint, a new frame, paint, geometry, unregistration, paint. No
context call arrives while attached. -/
def singleContext : List Op :=
  [Op.OnGrContextCreated, Op.Paint (envOk 5 zeros16) unitRect false, Op.MarkNewFrameAvailable,
   Op.Paint (envPullFails 6) unitRect false,
   Op.setTextureBufferSize { nativeWindow := some 2, geometryRet := 0, timeoutRet := 0 } 640 480,
   Op.OnTextureUnregistered, Op.Paint (envOk 8 zeros16) unitRect true]

/-- Two context generations with a frame in each, and an unregistration at the end. -/
def twoContexts : List Op :=
  [Op.OnGrContextCreated, Op.Paint (envOk 5 zeros16) unitRect false, Op.MarkNewFrameAvailable,
   Op.Paint (envOk 0 rotate90) unitRect false, Op.OnGrContextDestroyed,
   Op.Paint (envOk 0 zeros16) unitRect false, Op.OnGrContextCreated,
   Op.Paint (envOk 6 zeros16) unitRect true, Op.OnTextureUnregistered]

end flutter

/-! ## Theorems -/

namespace flutter

open OHOSExternalTextureGL

/-! ### Helper lemmas -/

theorem SkMatrix.mapHomogeneous_mul (a b : SkMatrix) (v : ℚ × ℚ × ℚ) :
    a.mapHomogeneous (b.mapHomogeneous v) = (a.mul b).mapHomogeneous v := by
  obtain ⟨x, y, w⟩ := v
  simp only [SkMatrix.mapHomogeneous, SkMatrix.mul, Prod.mk.injEq]
  refine ⟨?_, ?_, ?_⟩ <;> ring

theorem SkMatrix.mapHomogeneous_I (v : ℚ × ℚ × ℚ) : SkMatrix.I.mapHomogeneous v = v := by
  obtain ⟨x, y, w⟩ := v
  simp [SkMatrix.mapHomogeneous, SkMatrix.I]

/-- Whatever the out-parameter held, a successful `invert` writes a two-sided inverse. -/
theorem SkMatrix.invert_spec (E X : SkMatrix) (hdet : E.det ≠ 0) :
    (E.invert X).2.mul E = SkMatrix.I ∧ E.mul (E.invert X).2 = SkMatrix.I := by
  obtain ⟨a, b, c, d, e, f, g, h, i⟩ := E
  have hne : a * (e * i - f * h) - b * (d * i - f * g) + c * (d * h - e * g) ≠ 0 := by
    simpa only [SkMatrix.det] using hdet
  have hinv : (a * (e * i - f * h) - b * (d * i - f * g) + c * (d * h - e * g)) *
      (a * (e * i - f * h) - b * (d * i - f * g) + c * (d * h - e * g))⁻¹ = 1 :=
    mul_inv_cancel₀ hne
  simp only [SkMatrix.invert, SkMatrix.det, if_neg hne, SkMatrix.mul, SkMatrix.I,
    SkMatrix.mk.injEq, div_eq_mul_inv]
  refine ⟨⟨?_, ?_, ?_, ?_, ?_, ?_, ?_, ?_, ?_⟩, ⟨?_, ?_, ?_, ?_, ?_, ?_, ?_, ?_, ?_⟩⟩ <;>
    first
      | ring1
      | linear_combination hinv

theorem draw_filter_isPull (s : OHOSExternalTextureGL) (env : PaintEnv) (bounds : SkRect) :
    (s.draw env bounds).filter Call.isPull = [] := by
  unfold draw
  split_ifs <;> rfl

theorem Attach_filter_isPull (s : OHOSExternalTextureGL) (env : PaintEnv) :
    (s.Attach env).filter Call.isPull = [] := by
  unfold Attach
  split_ifs <;> rfl

theorem Update_state_ (s : OHOSExternalTextureGL) (env : PaintEnv) :
    (s.Update env).1.state_ = s.state_ ∧ (s.Update env).1.texture_name_ = s.texture_name_ := by
  unfold Update
  split_ifs <;> exact ⟨rfl, rfl⟩

theorem glEvents_append (t u : List Call) : glEvents (t ++ u) = glEvents t ++ glEvents u := by
  simp [glEvents]

theorem glEvents_cons (c : Call) (t : List Call) :
    glEvents (c :: t) = (if (c.isGen || c.isDelete) = true then [c] else []) ++ glEvents t := by
  simp only [glEvents, List.filter_cons]
  split_ifs <;> rfl

theorem glEvents_nil : glEvents [] = [] := rfl

theorem Update_glEvents (s : OHOSExternalTextureGL) (env : PaintEnv) :
    glEvents (s.Update env).2 = [] := by
  unfold Update UpdateTransform
  split_ifs <;>
    simp [glEvents_append, glEvents_cons, glEvents_nil, Call.isGen, Call.isDelete] <;>
    split_ifs <;>
    simp [glEvents_cons, glEvents_nil, Call.isGen, Call.isDelete]

theorem draw_glEvents (s : OHOSExternalTextureGL) (env : PaintEnv) (bounds : SkRect) :
    glEvents (s.draw env bounds) = [] := by
  unfold draw
  split_ifs <;> rfl

theorem Attach_glEvents (s : OHOSExternalTextureGL) (env : PaintEnv) :
    glEvents (s.Attach env) = [] := by
  unfold Attach
  split_ifs <;> rfl

theorem Paint_state_ (s : OHOSExternalTextureGL) (env : PaintEnv) (bounds : SkRect)
    (freeze : Bool) :
    (s.Paint env bounds freeze).1.state_ =
      (if s.state_ = AttachmentState.detached then AttachmentState.detached
       else AttachmentState.attached) := by
  have hu := fun u => (Update_state_ u env).1
  cases hs : s.state_ <;> simp [Paint, hs] <;> split_ifs <;> simp [hu, hs]

theorem Paint_texture_name_ (s : OHOSExternalTextureGL) (env : PaintEnv) (bounds : SkRect)
    (freeze : Bool) :
    (s.Paint env bounds freeze).1.texture_name_ =
      (if s.state_ = AttachmentState.uninitialized then env.genName else s.texture_name_) := by
  have hu := fun u => (Update_state_ u env).2
  cases hs : s.state_ <;> simp [Paint, hs] <;> split_ifs <;> simp [hu, hs]

theorem Paint_glEvents (s : OHOSExternalTextureGL) (env : PaintEnv) (bounds : SkRect)
    (freeze : Bool) :
    glEvents (s.Paint env bounds freeze).2 =
      (if s.state_ = AttachmentState.uninitialized then [Call.glGenTextures env.genName]
       else []) := by
  by_cases hc : (!freeze && s.new_frame_ready_) = true <;> cases hs : s.state_ <;>
    simp [Paint, hs, hc, glEvents_append, glEvents_cons, glEvents_nil, Update_glEvents,
      draw_glEvents, Attach_glEvents, Call.isGen, Call.isDelete]

theorem allocations_glEvents (tr : List Call) : allocations (glEvents tr) = allocations tr := by
  induction tr with
  | nil => rfl
  | cons c t ih =>
    simp only [allocations] at ih
    cases c <;>
      simp [allocations, glEvents_cons, Call.isGen, Call.isDelete, List.countP_cons, ih]

theorem releases_glEvents (tr : List Call) : releases (glEvents tr) = releases tr := by
  induction tr with
  | nil => rfl
  | cons c t ih =>
    simp only [releases] at ih
    cases c <;>
      simp [releases, glEvents_cons, Call.isGen, Call.isDelete, List.countP_cons, ih]

theorem allocations_append (t u : List Call) :
    allocations (t ++ u) = allocations t + allocations u := by
  simp [allocations]

theorem releases_append (t u : List Call) : releases (t ++ u) = releases t + releases u := by
  simp [releases]

theorem live_le_one (s : OHOSExternalTextureGL) : live s ≤ 1 := by
  unfold live
  split_ifs <;> simp

/-- What one call does to the GL texture-name calls and to the state and name fields. -/
theorem apply_glEvents (s : OHOSExternalTextureGL) (op : Op) :
    (glEvents (op.apply s).2 = [] ∧ (op.apply s).1.state_ = s.state_ ∧
        (op.apply s).1.texture_name_ = s.texture_name_) ∨
      (∃ env bounds freeze, op = Op.Paint env bounds freeze ∧
        s.state_ = AttachmentState.uninitialized ∧
        glEvents (op.apply s).2 = [Call.glGenTextures env.genName] ∧
        (op.apply s).1.state_ = AttachmentState.attached ∧
        (op.apply s).1.texture_name_ = env.genName) ∨
      (∃ env bounds freeze, op = Op.Paint env bounds freeze ∧
        s.state_ = AttachmentState.attached ∧
        glEvents (op.apply s).2 = [] ∧
        (op.apply s).1.state_ = AttachmentState.attached ∧
        (op.apply s).1.texture_name_ = s.texture_name_) ∨
      (op = Op.OnGrContextCreated ∧ glEvents (op.apply s).2 = [] ∧
        (op.apply s).1.state_ = AttachmentState.uninitialized) ∨
      (op = Op.OnGrContextDestroyed ∧ s.state_ = AttachmentState.attached ∧
        glEvents (op.apply s).2 = [Call.glDeleteTextures s.texture_name_] ∧
        (op.apply s).1.state_ = AttachmentState.detached) ∨
      (op = Op.OnGrContextDestroyed ∧ s.state_ ≠ AttachmentState.attached ∧
        glEvents (op.apply s).2 = [] ∧
        (op.apply s).1.state_ = AttachmentState.detached) := by
  cases op with
  | Paint env bounds freeze =>
    cases hs : s.state_
    · right; left
      exact ⟨env, bounds, freeze, rfl, rfl, by simp [Op.apply, Paint_glEvents, hs],
        by simp [Op.apply, Paint_state_, hs], by simp [Op.apply, Paint_texture_name_, hs]⟩
    · right; right; left
      exact ⟨env, bounds, freeze, rfl, rfl, by simp [Op.apply, Paint_glEvents, hs],
        by simp [Op.apply, Paint_state_, hs], by simp [Op.apply, Paint_texture_name_, hs]⟩
    · left
      exact ⟨by simp [Op.apply, Paint_glEvents, hs], by simp [Op.apply, Paint_state_, hs],
        by simp [Op.apply, Paint_texture_name_, hs]⟩
  | OnGrContextCreated =>
    right; right; right; left
    exact ⟨rfl, rfl, rfl⟩
  | OnGrContextDestroyed =>
    by_cases hs : s.state_ = AttachmentState.attached
    · right; right; right; right; left
      refine ⟨rfl, hs, ?_, rfl⟩
      simp [Op.apply, OnGrContextDestroyed, Detach, hs, glEvents_cons, glEvents_nil, Call.isGen,
        Call.isDelete]
    · right; right; right; right; right
      refine ⟨rfl, hs, ?_, rfl⟩
      simp [Op.apply, OnGrContextDestroyed, hs, glEvents_cons, glEvents_nil, Call.isGen,
        Call.isDelete]
  | MarkNewFrameAvailable =>
    left
    exact ⟨rfl, rfl, rfl⟩
  | OnTextureUnregistered =>
    left
    simp only [Op.apply, OnTextureUnregistered]
    split_ifs <;> exact ⟨rfl, rfl, rfl⟩
  | setTextureBufferSize env width height =>
    left
    simp only [Op.apply, setTextureBufferSize]
    split_ifs <;> exact ⟨rfl, rfl, rfl⟩

theorem destructor_glEvents (s : OHOSExternalTextureGL) :
    glEvents s.destructor =
      (if s.state_ = AttachmentState.attached then [Call.glDeleteTextures s.texture_name_]
       else []) := by
  unfold destructor
  split_ifs <;> rfl

theorem initial_part_cases (pre t u : List Call) (h : pre <+: t ++ u) :
    pre <+: t ∨ ∃ pre2, pre = t ++ pre2 ∧ pre2 <+: u := by
  obtain ⟨post, hpost⟩ := h
  rcases List.append_eq_append_iff.mp hpost with ⟨a, ha, _⟩ | ⟨c, hc, hu⟩
  · exact Or.inl ⟨a, ha.symm⟩
  · exact Or.inr ⟨c, hc, ⟨post, hu.symm⟩⟩

/-- One call, when no context creation meets an attached adapter: it allocates only when no
name is held, releases only a held name, and the held count after it accounts for both. -/
theorem apply_balance (s : OHOSExternalTextureGL) (op : Op) (ops : List Op)
    (h : noCreateWhileAttached s (op :: ops) = true) :
    noCreateWhileAttached (op.apply s).1 ops = true ∧
      allocations (op.apply s).2 + live s ≤ 1 ∧ releases (op.apply s).2 ≤ live s ∧
      live s + allocations (op.apply s).2 = live (op.apply s).1 + releases (op.apply s).2 := by
  rw [← allocations_glEvents, ← releases_glEvents]
  rcases apply_glEvents s op with ⟨hg, hst, _⟩ | ⟨env, b, f, rfl, hs, hg, hst, _⟩ |
    ⟨env, b, f, rfl, hs, hg, hst, _⟩ | ⟨rfl, hg, hst⟩ | ⟨rfl, hs, hg, hst⟩ | ⟨rfl, hs, hg, hst⟩
  · refine ⟨?_, ?_⟩
    · cases op <;> simp_all [noCreateWhileAttached]
    · have := live_le_one s
      simp [hg, live, hst, allocations, releases]
      split_ifs <;> simp
  · refine ⟨by simpa [noCreateWhileAttached] using h, ?_⟩
    simp [hg, live, hst, hs, allocations, releases, Call.isGen, Call.isDelete]
  · refine ⟨by simpa [noCreateWhileAttached] using h, ?_⟩
    simp [hg, live, hst, hs, allocations, releases]
  · simp only [noCreateWhileAttached, Bool.and_eq_true, decide_eq_true_eq] at h
    refine ⟨h.2, ?_⟩
    simp [hg, live, hst, h.1, allocations, releases]
  · refine ⟨by simpa [noCreateWhileAttached] using h, ?_⟩
    simp [hg, live, hst, hs, allocations, releases, Call.isGen, Call.isDelete]
  · refine ⟨by simpa [noCreateWhileAttached] using h, ?_⟩
    simp [hg, live, hst, hs, allocations, releases]

theorem run_balanced (ops : List Op) : ∀ s : OHOSExternalTextureGL,
    noCreateWhileAttached s ops = true →
      live s + allocations ((run s ops).2 ++ (run s ops).1.destructor) =
          releases ((run s ops).2 ++ (run s ops).1.destructor) ∧
        ∀ pre, pre <+: (run s ops).2 ++ (run s ops).1.destructor →
          releases pre ≤ live s + allocations pre ∧ live s + allocations pre ≤ releases pre + 1 := by
  induction ops with
  | nil =>
    intro s _
    have ha : allocations s.destructor = 0 := by
      rw [← allocations_glEvents, destructor_glEvents]
      split_ifs <;> rfl
    have hr : releases s.destructor = live s := by
      rw [← releases_glEvents, destructor_glEvents]
      unfold live
      split_ifs <;> rfl
    have hl := live_le_one s
    refine ⟨by simp [run, ha, hr], fun pre hpre => ?_⟩
    simp only [run, List.nil_append] at hpre
    have h1 : allocations pre ≤ allocations s.destructor := hpre.countP_le _
    have h2 : releases pre ≤ releases s.destructor := hpre.countP_le _
    omega
  | cons op ops ih =>
    intro s h
    obtain ⟨hrest, hb1, hb2, hb3⟩ := apply_balance s op ops h
    obtain ⟨ih1, ih2⟩ := ih (op.apply s).1 hrest
    have hl := live_le_one s
    have hl2 := live_le_one (op.apply s).1
    simp only [run, List.append_assoc]
    refine ⟨?_, fun pre hpre => ?_⟩
    · rw [allocations_append, releases_append]
      omega
    · rcases initial_part_cases _ _ _ hpre with hp | ⟨pre2, rfl, hp2⟩
      · have h1 : allocations pre ≤ allocations (op.apply s).2 := hp.countP_le _
        have h2 : releases pre ≤ releases (op.apply s).2 := hp.countP_le _
        omega
      · have := ih2 pre2 hp2
        rw [allocations_append, releases_append]
        omega

theorem genNames_append (t u : List Call) : genNames (t ++ u) = genNames t ++ genNames u := by
  induction t with
  | nil => rfl
  | cons c t ih => cases c <;> simp [genNames, ih]

theorem genNames_glEvents (tr : List Call) : genNames (glEvents tr) = genNames tr := by
  induction tr with
  | nil => rfl
  | cons c t ih =>
    rw [glEvents_cons]
    cases c <;> simp only [Call.isGen, Call.isDelete] <;> simp [genNames, ih]

theorem releasesValid_glEvents (tr : List Call) : ∀ A R : List Nat,
    releasesValid A R (glEvents tr) = releasesValid A R tr := by
  induction tr with
  | nil => intro A R; rfl
  | cons c t ih =>
    intro A R
    rw [glEvents_cons]
    cases c <;> simp only [Call.isGen, Call.isDelete] <;> simp [releasesValid, ih]

/-- What `releasesValid` checks, said with the positions in the trace. -/
theorem releasesValid_sound (tr : List Call) : ∀ A R : List Nat,
    releasesValid A R tr = true →
      ∀ pre n post, tr = pre ++ Call.glDeleteTextures n :: post →
        (n ∈ A ∨ Call.glGenTextures n ∈ pre) ∧ n ∉ R ∧ Call.glDeleteTextures n ∉ pre := by
  induction tr with
  | nil =>
    intro A R _ pre n post h
    simp at h
  | cons c t ih =>
    intro A R hv pre n post h
    cases pre with
    | nil =>
      simp only [List.nil_append, List.cons.injEq] at h
      obtain ⟨rfl, rfl⟩ := h
      simp only [releasesValid, Bool.and_eq_true, decide_eq_true_eq] at hv
      exact ⟨Or.inl hv.1.1, hv.1.2, by simp⟩
    | cons d pre2 =>
      simp only [List.cons_append, List.cons.injEq] at h
      obtain ⟨rfl, ht⟩ := h
      cases c with
      | glGenTextures m =>
        simp only [releasesValid] at hv
        obtain ⟨h1, h2, h3⟩ := ih (m :: A) R hv pre2 n post ht
        refine ⟨?_, h2, by simpa using h3⟩
        rcases h1 with h1 | h1
        · rcases List.mem_cons.mp h1 with rfl | h1
          · exact Or.inr (by simp)
          · exact Or.inl h1
        · exact Or.inr (List.mem_cons_of_mem _ h1)
      | glDeleteTextures m =>
        simp only [releasesValid, Bool.and_eq_true, decide_eq_true_eq] at hv
        obtain ⟨h1, h2, h3⟩ := ih A (m :: R) hv.2 pre2 n post ht
        simp only [List.mem_cons, not_or] at h2
        refine ⟨?_, h2.2, ?_⟩
        · rcases h1 with h1 | h1
          · exact Or.inl h1
          · exact Or.inr (List.mem_cons_of_mem _ h1)
        · simp only [List.mem_cons, Call.glDeleteTextures.injEq, not_or]
          exact ⟨h2.1, h3⟩
      | _ =>
        simp only [releasesValid] at hv
        obtain ⟨h1, h2, h3⟩ := ih A R hv pre2 n post ht
        refine ⟨?_, h2, by simpa using h3⟩
        rcases h1 with h1 | h1
        · exact Or.inl h1
        · exact Or.inr (List.mem_cons_of_mem _ h1)

/-- Along any sequence of calls, with fresh names from `glGenTextures`, every
`glDeleteTextures` passes the check of `releasesValid`. Here `A` and `R` are the names
allocated and released before the sequence; an attached adapter holds a name of `A` that is
not in `R`. -/
theorem run_releasesValid (ops : List Op) (destroyed : Bool) :
    ∀ (s : OHOSExternalTextureGL) (A R : List Nat),
      (s.state_ = AttachmentState.attached → s.texture_name_ ∈ A ∧ s.texture_name_ ∉ R) →
      (∀ n ∈ R, n ∈ A) →
      (genNames ((run s ops).2 ++ (if destroyed then (run s ops).1.destructor else []))).Nodup →
      (∀ n ∈ genNames ((run s ops).2 ++ (if destroyed then (run s ops).1.destructor else [])),
        n ∉ A) →
      releasesValid A R
        ((run s ops).2 ++ (if destroyed then (run s ops).1.destructor else [])) = true := by
  induction ops with
  | nil =>
    intro s A R hinv _ _ _
    rw [← releasesValid_glEvents]
    cases destroyed
    · simp [run, glEvents_nil, releasesValid]
    · by_cases hs : s.state_ = AttachmentState.attached
      · simp [run, destructor_glEvents, hs, releasesValid, hinv hs]
      · simp [run, destructor_glEvents, hs, releasesValid]
  | cons op ops ih =>
    intro s A R hinv hRA hnd hfresh
    simp only [run, List.append_assoc] at hnd hfresh ⊢
    rw [genNames_append, ← genNames_glEvents (op.apply s).2] at hnd hfresh
    rw [← releasesValid_glEvents, glEvents_append]
    rcases apply_glEvents s op with ⟨hg, hst, hnm⟩ | ⟨env, b, f, rfl, hs, hg, hst, hnm⟩ |
      ⟨env, b, f, rfl, hs, hg, hst, hnm⟩ | ⟨rfl, hg, hst⟩ | ⟨rfl, hs, hg, hst⟩ |
      ⟨rfl, hs, hg, hst⟩
    · rw [hg] at hnd hfresh ⊢
      simp only [genNames, List.nil_append] at hnd hfresh ⊢
      rw [releasesValid_glEvents]
      exact ih _ A R (by rw [hst, hnm]; exact hinv) hRA hnd hfresh
    · rw [hg] at hnd hfresh ⊢
      simp only [genNames, List.cons_append, List.nil_append, List.nodup_cons,
        List.mem_cons, forall_eq_or_imp] at hnd hfresh ⊢
      simp only [releasesValid]
      rw [releasesValid_glEvents]
      refine ih _ (env.genName :: A) R ?_ ?_ hnd.2 ?_
      · intro _
        rw [hnm]
        exact ⟨List.mem_cons_self _ _, fun hR => hfresh.1 (hRA _ hR)⟩
      · intro n hn
        exact List.mem_cons_of_mem _ (hRA n hn)
      · intro n hn
        simp only [List.mem_cons, not_or]
        exact ⟨fun h => hnd.1 (h ▸ hn), hfresh.2 n hn⟩
    · rw [hg] at hnd hfresh ⊢
      simp only [genNames, List.nil_append] at hnd hfresh ⊢
      rw [releasesValid_glEvents]
      exact ih _ A R (by rw [hnm]; exact fun _ => hinv hs) hRA hnd hfresh
    · rw [hg] at hnd hfresh ⊢
      simp only [genNames, List.nil_append] at hnd hfresh ⊢
      rw [releasesValid_glEvents]
      exact ih _ A R (by rw [hst]; intro h; cases h) hRA hnd hfresh
    · rw [hg] at hnd hfresh ⊢
      simp only [genNames, List.cons_append, List.nil_append] at hnd hfresh ⊢
      simp only [releasesValid, Bool.and_eq_true, decide_eq_true_eq]
      rw [releasesValid_glEvents]
      refine ⟨⟨(hinv hs).1, (hinv hs).2⟩, ih _ A (s.texture_name_ :: R) ?_ ?_ hnd hfresh⟩
      · rw [hst]; intro h; cases h
      · intro n hn
        rcases List.mem_cons.mp hn with rfl | hn
        · exact (hinv hs).1
        · exact hRA n hn
    · rw [hg] at hnd hfresh ⊢
      simp only [genNames, List.nil_append] at hnd hfresh ⊢
      rw [releasesValid_glEvents]
      exact ih _ A R (by rw [hst]; intro h; cases h) hRA hnd hfresh

theorem apply_attached_nonzero (s : OHOSExternalTextureGL) (op : Op)
    (hop : op.genNonZero = true)
    (hinv : s.state_ = AttachmentState.attached → s.texture_name_ ≠ 0) :
    (op.apply s).1.state_ = AttachmentState.attached → (op.apply s).1.texture_name_ ≠ 0 := by
  rcases apply_glEvents s op with ⟨_, hst, hnm⟩ | ⟨env, b, f, rfl, _, _, _, hnm⟩ |
    ⟨env, b, f, rfl, hs, _, _, hnm⟩ | ⟨rfl, _, hst⟩ | ⟨rfl, _, _, hst⟩ | ⟨rfl, _, _, hst⟩
  · rw [hst, hnm]; exact hinv
  · intro _
    rw [hnm]
    simpa [Op.genNonZero] using hop
  · intro _
    rw [hnm]
    exact hinv hs
  · rw [hst]; intro h; cases h
  · rw [hst]; intro h; cases h
  · rw [hst]; intro h; cases h

theorem run_attached_nonzero (ops : List Op) : ∀ s : OHOSExternalTextureGL,
    ops.all Op.genNonZero = true →
    (s.state_ = AttachmentState.attached → s.texture_name_ ≠ 0) →
    (run s ops).1.state_ = AttachmentState.attached → (run s ops).1.texture_name_ ≠ 0 := by
  induction ops with
  | nil => intro s _ hinv; exact hinv
  | cons op ops ih =>
    intro s hops hinv
    simp only [List.all_cons, Bool.and_eq_true] at hops
    exact ih (op.apply s).1 hops.2 (apply_attached_nonzero s op hops.1 hinv)

theorem genNames_apply (s : OHOSExternalTextureGL) (op : Op) :
    genNames (op.apply s).2 =
      (match op with
       | Op.Paint env _ _ =>
         if s.state_ = AttachmentState.uninitialized then [env.genName] else []
       | _ => []) := by
  cases op with
  | Paint env b f =>
    simp only [Op.apply]
    rw [← genNames_glEvents, Paint_glEvents]
    split_ifs <;> rfl
  | OnGrContextCreated => rfl
  | OnGrContextDestroyed =>
    simp only [Op.apply, OnGrContextDestroyed]
    split_ifs <;> rfl
  | MarkNewFrameAvailable => rfl
  | OnTextureUnregistered =>
    simp only [Op.apply, OnTextureUnregistered]
    split_ifs <;> rfl
  | setTextureBufferSize env w h =>
    simp only [Op.apply, setTextureBufferSize]
    split_ifs <;> rfl

theorem apply_state_ (s : OHOSExternalTextureGL) (op : Op) :
    (op.apply s).1.state_ =
      (match op with
       | Op.Paint _ _ _ =>
         if s.state_ = AttachmentState.detached then AttachmentState.detached
         else AttachmentState.attached
       | Op.OnGrContextCreated => AttachmentState.uninitialized
       | Op.OnGrContextDestroyed => AttachmentState.detached
       | _ => s.state_) := by
  cases op with
  | Paint env b f => exact Paint_state_ s env b f
  | OnGrContextCreated => rfl
  | OnGrContextDestroyed => rfl
  | MarkNewFrameAvailable => rfl
  | OnTextureUnregistered =>
    simp only [Op.apply, OnTextureUnregistered]
    split_ifs <;> rfl
  | setTextureBufferSize env w h =>
    simp only [Op.apply, setTextureBufferSize]
    split_ifs <;> rfl

theorem genNames_destructor (s : OHOSExternalTextureGL) : genNames s.destructor = [] := by
  unfold destructor
  split_ifs <;> rfl

theorem apply_texture_name_ (s : OHOSExternalTextureGL) (op : Op) :
    (op.apply s).1.texture_name_ =
      (match op with
       | Op.Paint env _ _ =>
         if s.state_ = AttachmentState.uninitialized then env.genName else s.texture_name_
       | _ => s.texture_name_) := by
  cases op with
  | Paint env b f => exact Paint_texture_name_ s env b f
  | OnGrContextCreated => rfl
  | OnGrContextDestroyed => rfl
  | MarkNewFrameAvailable => rfl
  | OnTextureUnregistered =>
    simp only [Op.apply, OnTextureUnregistered]
    split_ifs <;> rfl
  | setTextureBufferSize env w h =>
    simp only [Op.apply, setTextureBufferSize]
    split_ifs <;> rfl

theorem lastGenName_append (t u : List Call) : ∀ d : Nat,
    lastGenName d (t ++ u) = lastGenName (lastGenName d t) u := by
  induction t with
  | nil => intro d; rfl
  | cons c t ih => intro d; cases c <;> simp [lastGenName, ih]

theorem lastGenName_glEvents (tr : List Call) : ∀ d : Nat,
    lastGenName d (glEvents tr) = lastGenName d tr := by
  induction tr with
  | nil => intro d; rfl
  | cons c t ih =>
    intro d
    rw [glEvents_cons]
    cases c <;> simp only [Call.isGen, Call.isDelete] <;> simp [lastGenName, ih]

/-- One call leaves in `texture_name_` the last name its trace allocated, or the old name. -/
theorem apply_lastGenName (s : OHOSExternalTextureGL) (op : Op) :
    lastGenName s.texture_name_ (op.apply s).2 = (op.apply s).1.texture_name_ := by
  rw [← lastGenName_glEvents, apply_texture_name_]
  rcases apply_glEvents s op with ⟨hg, _, _⟩ | ⟨env, b, f, rfl, hs, hg, _, _⟩ |
    ⟨env, b, f, rfl, hs, hg, _, _⟩ | ⟨rfl, hg, _⟩ | ⟨rfl, hs, hg, _⟩ | ⟨rfl, hs, hg, _⟩
  · rw [hg]
    cases op with
    | Paint env b f =>
      have hp := Paint_glEvents s env b f
      simp only [Op.apply] at hg
      rw [hg] at hp
      by_cases hu : s.state_ = AttachmentState.uninitialized
      · simp [hu] at hp
      · simp [hu, lastGenName]
    | _ => rfl
  · rw [hg]; simp [hs, lastGenName]
  · rw [hg]; simp [hs, lastGenName]
  · rw [hg]; rfl
  · rw [hg]; rfl
  · rw [hg]; rfl

theorem run_lastGenName (ops : List Op) : ∀ s : OHOSExternalTextureGL,
    (run s ops).1.texture_name_ = lastGenName s.texture_name_ (run s ops).2 := by
  induction ops with
  | nil => intro s; rfl
  | cons op ops ih =>
    intro s
    simp only [run]
    rw [lastGenName_append, apply_lastGenName, ih]

theorem apply_nonzero_attached (s : OHOSExternalTextureGL) (op : Op) (ops : List Op)
    (hstay : noContextCallWhileAttached s (op :: ops) = true)
    (hinv : s.texture_name_ ≠ 0 → s.state_ = AttachmentState.attached) :
    noContextCallWhileAttached (op.apply s).1 ops = true ∧
      ((op.apply s).1.texture_name_ ≠ 0 → (op.apply s).1.state_ = AttachmentState.attached) := by
  rw [apply_texture_name_, apply_state_]
  cases op with
  | Paint env b f =>
    refine ⟨by simpa [noContextCallWhileAttached] using hstay, ?_⟩
    cases hs : s.state_ <;> simp [hs]
    by_contra hne
    have := hinv hne
    rw [hs] at this
    cases this
  | OnGrContextCreated =>
    simp only [noContextCallWhileAttached, Bool.and_eq_true, decide_eq_true_eq] at hstay
    exact ⟨hstay.2, fun hne => absurd (hinv hne) hstay.1⟩
  | OnGrContextDestroyed =>
    simp only [noContextCallWhileAttached, Bool.and_eq_true, decide_eq_true_eq] at hstay
    exact ⟨hstay.2, fun hne => absurd (hinv hne) hstay.1⟩
  | MarkNewFrameAvailable =>
    exact ⟨by simpa [noContextCallWhileAttached] using hstay, hinv⟩
  | OnTextureUnregistered =>
    exact ⟨by simpa [noContextCallWhileAttached] using hstay, hinv⟩
  | setTextureBufferSize env w h =>
    exact ⟨by simpa [noContextCallWhileAttached] using hstay, hinv⟩

theorem run_nonzero_attached (ops : List Op) : ∀ s : OHOSExternalTextureGL,
    noContextCallWhileAttached s ops = true →
    (s.texture_name_ ≠ 0 → s.state_ = AttachmentState.attached) →
    (run s ops).1.texture_name_ ≠ 0 → (run s ops).1.state_ = AttachmentState.attached := by
  induction ops with
  | nil => intro s _ hinv; exact hinv
  | cons op ops ih =>
    intro s hstay hinv
    obtain ⟨h1, h2⟩ := apply_nonzero_attached s op ops hstay hinv
    exact ih (op.apply s).1 h1 h2

/-! ### Single calls -/

/-- C2, as the code has it: on an adapter that is not detached, holds a non-null native image
and has a frame pending, a `Paint` with `freeze = false` whose `OH_NativeImage_UpdateSurfaceImage`
fails issues that one pull and no matrix fetch, leaves `transform` as it was, and clears
`new_frame_ready_` (the flag is reset after `Update()` whatever `Update()` did). -/
theorem Paint_failed_pull (s : OHOSExternalTextureGL) (env : PaintEnv) (bounds : SkRect)
    (hstate : s.state_ ≠ AttachmentState.detached) (himage : s.native_image_ ≠ none)
    (hdirty : s.new_frame_ready_ = true) (hfail : env.updateRet ≠ 0) :
    (s.Paint env bounds false).1.new_frame_ready_ = false ∧
      (s.Paint env bounds false).1.transform = s.transform ∧
      (s.Paint env bounds false).2.filter Call.isPull =
        [Call.OH_NativeImage_UpdateSurfaceImage s.native_image_] := by
  by_cases hu : s.state_ = AttachmentState.uninitialized
  · simp [Paint, Update, hu, himage, hdirty, hfail, List.filter_append, draw_filter_isPull,
      Attach_filter_isPull, Call.isPull]
  · simp [Paint, Update, hu, hstate, himage, hdirty, hfail, List.filter_append,
      draw_filter_isPull, Call.isPull]

/-- Witness for `Paint_failed_pull`: the attached adapter with a pending frame. -/
theorem Paint_failed_pull_witness :
    attachedDirty.state_ ≠ AttachmentState.detached ∧ attachedDirty.native_image_ ≠ none ∧
      attachedDirty.new_frame_ready_ = true ∧ (envPullFails 9).updateRet ≠ 0 ∧
      ((attachedDirty.Paint (envPullFails 9) unitRect false).1.new_frame_ready_ = false ∧
        (attachedDirty.Paint (envPullFails 9) unitRect false).1.transform
          = attachedDirty.transform ∧
        (attachedDirty.Paint (envPullFails 9) unitRect false).2.filter Call.isPull =
          [Call.OH_NativeImage_UpdateSurfaceImage attachedDirty.native_image_]) :=
  ⟨by decide, by decide, rfl, by decide,
    Paint_failed_pull attachedDirty (envPullFails 9) unitRect (by decide) (by decide) rfl
      (by decide)⟩

/-- C2 fails as stated: the attached adapter `attachedDirty` has a non-null native image and a
pending frame, the pull fails, and after `Paint` with `freeze = false` the flag
`new_frame_ready_` is `false`, not still `true`. -/
theorem failed_pull_clears_flag :
    attachedDirty.state_ ≠ AttachmentState.detached ∧ attachedDirty.native_image_ ≠ none ∧
      attachedDirty.new_frame_ready_ = true ∧ (envPullFails 9).updateRet ≠ 0 ∧
      ¬ ((attachedDirty.Paint (envPullFails 9) unitRect false).1.new_frame_ready_ = true ∧
          (attachedDirty.Paint (envPullFails 9) unitRect false).1.transform
            = attachedDirty.transform) := by
  decide

/-- C3, as the code has it: when the extracted 3x3 matrix `matrix3 m` is singular,
`UpdateTransform` leaves `transform` equal to the identity matrix (the value of the
default-constructed local `inverted`), whatever `transform` held before; the singular matrix
itself does not stay installed. -/
theorem UpdateTransform_singular (s : OHOSExternalTextureGL) (env : PaintEnv)
    (hsing : (matrix3 env.m).det = 0) :
    (s.UpdateTransform env).1.transform = SkMatrix.I := by
  simp [UpdateTransform, SkMatrix.invert, hsing]

/-- Witness for `UpdateTransform_singular`: the all-zero producer matrix. -/
theorem UpdateTransform_singular_witness :
    (matrix3 (envOk 9 zeros16).m).det = 0 ∧
      (attachedDirty.UpdateTransform (envOk 9 zeros16)).1.transform = SkMatrix.I :=
  ⟨by simp [matrix3, SkMatrix.set9, SkMatrix.det, envOk, zeros16],
    UpdateTransform_singular attachedDirty (envOk 9 zeros16)
      (by simp [matrix3, SkMatrix.set9, SkMatrix.det, envOk, zeros16])⟩

/-- C3 fails as stated: with the prior transform `scale2` and the all-zero producer matrix
(whose extracted 3x3 matrix is singular), `UpdateTransform` does not leave `transform` at its
prior value. -/
theorem singular_matrix_overwrites_transform :
    (matrix3 (envOk 9 zeros16).m).det = 0 ∧
      (attachedDirty.UpdateTransform (envOk 9 zeros16)).1.transform ≠ attachedDirty.transform := by
  constructor
  · simp [matrix3, SkMatrix.set9, SkMatrix.det, envOk, zeros16]
  · simp [UpdateTransform, matrix3, SkMatrix.set9, SkMatrix.invert, SkMatrix.det, envOk, zeros16,
      attachedDirty, scale2, SkMatrix.I]

/-- C4: after a successful matrix fetch, when the 3x3 matrix
`E = [[m0, m4, m12], [m1, m5, m13], [m3, m7, m15]]` taken from the producer matrix `m[0..15]`
is invertible (non-zero determinant), the transform `T` stored by `UpdateTransform` satisfies
`T * E = E * T = I`, and mapping any homogeneous vector by `T` and then by `E` gives it back. -/
theorem UpdateTransform_inverse (s : OHOSExternalTextureGL) (env : PaintEnv)
    (_hfetch : env.matrixRet = 0)
    (hdet : SkMatrix.det
      ⟨env.m 0, env.m 4, env.m 12, env.m 1, env.m 5, env.m 13, env.m 3, env.m 7, env.m 15⟩ ≠ 0) :
    ((s.UpdateTransform env).1.transform.mul
          ⟨env.m 0, env.m 4, env.m 12, env.m 1, env.m 5, env.m 13, env.m 3, env.m 7, env.m 15⟩
        = SkMatrix.I ∧
      SkMatrix.mul
          ⟨env.m 0, env.m 4, env.m 12, env.m 1, env.m 5, env.m 13, env.m 3, env.m 7, env.m 15⟩
          (s.UpdateTransform env).1.transform
        = SkMatrix.I) ∧
      ∀ v : ℚ × ℚ × ℚ,
        SkMatrix.mapHomogeneous
          ⟨env.m 0, env.m 4, env.m 12, env.m 1, env.m 5, env.m 13, env.m 3, env.m 7, env.m 15⟩
          ((s.UpdateTransform env).1.transform.mapHomogeneous v) = v := by
  have ht : (s.UpdateTransform env).1.transform =
      (SkMatrix.invert
        ⟨env.m 0, env.m 4, env.m 12, env.m 1, env.m 5, env.m 13, env.m 3, env.m 7, env.m 15⟩
        SkMatrix.I).2 := rfl
  have hspec := SkMatrix.invert_spec
    ⟨env.m 0, env.m 4, env.m 12, env.m 1, env.m 5, env.m 13, env.m 3, env.m 7, env.m 15⟩
    SkMatrix.I hdet
  rw [ht]
  refine ⟨hspec, fun v => ?_⟩
  rw [SkMatrix.mapHomogeneous_mul, hspec.2, SkMatrix.mapHomogeneous_I]

/-- Witness for `UpdateTransform_inverse`: the 90-degree rotation `rotate90`, whose extracted
matrix is `[[0, -1, 1], [1, 0, 0], [0, 0, 1]]` and whose stored transform is
`[[0, 1, 0], [-1, 0, 1], [0, 0, 1]]`. -/
theorem UpdateTransform_inverse_witness :
    (envOk 9 rotate90).matrixRet = 0 ∧
      (⟨(envOk 9 rotate90).m 0, (envOk 9 rotate90).m 4, (envOk 9 rotate90).m 12,
        (envOk 9 rotate90).m 1, (envOk 9 rotate90).m 5, (envOk 9 rotate90).m 13,
        (envOk 9 rotate90).m 3, (envOk 9 rotate90).m 7, (envOk 9 rotate90).m 15⟩ : SkMatrix)
        = ⟨0, -1, 1, 1, 0, 0, 0, 0, 1⟩ ∧
      (attachedDirty.UpdateTransform (envOk 9 rotate90)).1.transform
        = ⟨0, 1, 0, -1, 0, 1, 0, 0, 1⟩ ∧
      (((attachedDirty.UpdateTransform (envOk 9 rotate90)).1.transform.mul
            ⟨(envOk 9 rotate90).m 0, (envOk 9 rotate90).m 4, (envOk 9 rotate90).m 12,
             (envOk 9 rotate90).m 1, (envOk 9 rotate90).m 5, (envOk 9 rotate90).m 13,
             (envOk 9 rotate90).m 3, (envOk 9 rotate90).m 7, (envOk 9 rotate90).m 15⟩
          = SkMatrix.I ∧
        SkMatrix.mul
            ⟨(envOk 9 rotate90).m 0, (envOk 9 rotate90).m 4, (envOk 9 rotate90).m 12,
             (envOk 9 rotate90).m 1, (envOk 9 rotate90).m 5, (envOk 9 rotate90).m 13,
             (envOk 9 rotate90).m 3, (envOk 9 rotate90).m 7, (envOk 9 rotate90).m 15⟩
            (attachedDirty.UpdateTransform (envOk 9 rotate90)).1.transform
          = SkMatrix.I) ∧
        ∀ v : ℚ × ℚ × ℚ,
          SkMatrix.mapHomogeneous
            ⟨(envOk 9 rotate90).m 0, (envOk 9 rotate90).m 4, (envOk 9 rotate90).m 12,
             (envOk 9 rotate90).m 1, (envOk 9 rotate90).m 5, (envOk 9 rotate90).m 13,
             (envOk 9 rotate90).m 3, (envOk 9 rotate90).m 7, (envOk 9 rotate90).m 15⟩
            ((attachedDirty.UpdateTransform (envOk 9 rotate90)).1.transform.mapHomogeneous v)
            = v) :=
  ⟨rfl, by simp [envOk, rotate90],
    by simp [UpdateTransform, matrix3, SkMatrix.set9, SkMatrix.invert, SkMatrix.det, rotate90,
      envOk],
    UpdateTransform_inverse attachedDirty (envOk 9 rotate90) rfl
      (by simp [SkMatrix.det, envOk, rotate90])⟩

/-- C5: a `Paint` with `freeze = true` issues no pull (no `OH_NativeImage_UpdateSurfaceImage`
and no `OH_NativeImage_GetTransformMatrixV2` in its trace) and leaves `new_frame_ready_` and
`transform` as they were, in every state and for every value of `new_frame_ready_`. -/
theorem Paint_frozen (s : OHOSExternalTextureGL) (env : PaintEnv) (bounds : SkRect) :
    (s.Paint env bounds true).2.filter Call.isPull = [] ∧
      (s.Paint env bounds true).1.new_frame_ready_ = s.new_frame_ready_ ∧
      (s.Paint env bounds true).1.transform = s.transform := by
  by_cases hd : s.state_ = AttachmentState.detached
  · simp [Paint, hd, Call.isPull]
  · by_cases hu : s.state_ = AttachmentState.uninitialized
    · simp [Paint, hu, List.filter_append, draw_filter_isPull, Attach_filter_isPull, Call.isPull]
    · simp [Paint, hd, hu, draw_filter_isPull]

/-- C6: on a detached adapter `Paint` returns at once: its trace is the one log line (no
`glGenTextures`, no attach, no pull, no Skia or canvas call) and every field, so `state_`,
`texture_name_`, `new_frame_ready_` and `transform`, is as before, whatever the bounds, the
freeze flag and the answers of the outside world. -/
theorem Paint_detached (s : OHOSExternalTextureGL) (env : PaintEnv) (bounds : SkRect)
    (freeze : Bool) (hstate : s.state_ = AttachmentState.detached) :
    s.Paint env bounds freeze = (s, [Call.log]) ∧
      externalCalls (s.Paint env bounds freeze).2 = [] := by
  simp [Paint, hstate, externalCalls]

/-- Witness for `Paint_detached`: the detached adapter with a pending frame, not frozen. -/
theorem Paint_detached_witness :
    detachedAdapter.state_ = AttachmentState.detached ∧
      (detachedAdapter.Paint (envOk 9 rotate90) unitRect false = (detachedAdapter, [Call.log]) ∧
        externalCalls (detachedAdapter.Paint (envOk 9 rotate90) unitRect false).2 = []) :=
  ⟨rfl, Paint_detached detachedAdapter (envOk 9 rotate90) unitRect false rfl⟩

/-- C8: on an attached adapter `OnGrContextDestroyed` issues, log lines apart, exactly
`OH_NativeImage_DetachContext` and then `glDeleteTextures` of the current `texture_name_`;
on an adapter that is not attached it issues neither; in both cases the state afterwards is
`detached`. -/
theorem OnGrContextDestroyed_calls (s : OHOSExternalTextureGL) :
    (s.state_ = AttachmentState.attached →
        externalCalls s.OnGrContextDestroyed.2 =
          [Call.OH_NativeImage_DetachContext s.native_image_,
           Call.glDeleteTextures s.texture_name_]) ∧
      (s.state_ ≠ AttachmentState.attached → externalCalls s.OnGrContextDestroyed.2 = []) ∧
      s.OnGrContextDestroyed.1.state_ = AttachmentState.detached := by
  refine ⟨fun h => ?_, fun h => ?_, rfl⟩
  · simp [OnGrContextDestroyed, Detach, externalCalls, h]
  · simp [OnGrContextDestroyed, externalCalls, h]

/-- Witness for `OnGrContextDestroyed_calls`: the attached branch on `attachedDirty` and the
other branch on `detachedAdapter`. -/
theorem OnGrContextDestroyed_calls_witness :
    attachedDirty.state_ = AttachmentState.attached ∧
      externalCalls attachedDirty.OnGrContextDestroyed.2 =
        [Call.OH_NativeImage_DetachContext (some 1), Call.glDeleteTextures 5] ∧
      detachedAdapter.state_ ≠ AttachmentState.attached ∧
      externalCalls detachedAdapter.OnGrContextDestroyed.2 = [] :=
  ⟨rfl, (OnGrContextDestroyed_calls attachedDirty).1 rfl, by decide,
    (OnGrContextDestroyed_calls detachedAdapter).2.1 (by decide)⟩

/-- C9: starting with a non-null native image, `n >= 1` consecutive `OnTextureUnregistered`
calls issue in total, log lines apart, exactly one
`OH_NativeImage_UnsetOnFrameAvailableListener` followed by one `OH_NativeImage_Destroy`, and
the state after them is the state after the first call. -/
theorem OnTextureUnregistered_idempotent (s : OHOSExternalTextureGL) (n : Nat)
    (himage : s.native_image_ ≠ none) (hn : 1 ≤ n) :
    externalCalls (unregisterTimes s n).2 =
        [Call.OH_NativeImage_UnsetOnFrameAvailableListener s.native_image_,
         Call.OH_NativeImage_Destroy s.native_image_] ∧
      (unregisterTimes s n).1 = s.OnTextureUnregistered.1 := by
  have hnull : ∀ (k : Nat) (u : OHOSExternalTextureGL), u.native_image_ = none →
      externalCalls (unregisterTimes u k).2 = [] ∧ (unregisterTimes u k).1 = u := by
    intro k
    induction k with
    | zero => intro u _; exact ⟨rfl, rfl⟩
    | succ k ih =>
      intro u hu
      have h1 : u.OnTextureUnregistered = (u, [Call.log]) := by
        simp [OnTextureUnregistered, hu]
      simp only [unregisterTimes, h1]
      refine ⟨?_, (ih u hu).2⟩
      have := (ih u hu).1
      simp only [externalCalls, List.filter_append] at this ⊢
      rw [this]
      rfl
  obtain ⟨k, rfl⟩ : ∃ k, n = k + 1 := ⟨n - 1, by omega⟩
  have h1 : s.OnTextureUnregistered =
      ({ s with native_image_ := none },
       [Call.log, Call.OH_NativeImage_UnsetOnFrameAvailableListener s.native_image_,
        Call.OH_NativeImage_Destroy s.native_image_]) := by
    simp [OnTextureUnregistered, himage]
  have h2 := hnull k { s with native_image_ := none } rfl
  simp only [unregisterTimes, h1]
  refine ⟨?_, h2.2⟩
  have := h2.1
  simp only [externalCalls, List.filter_append] at this ⊢
  rw [this]
  simp

/-- Witness for `OnTextureUnregistered_idempotent`: three calls on `attachedDirty`. -/
theorem OnTextureUnregistered_idempotent_witness :
    attachedDirty.native_image_ ≠ none ∧ 1 ≤ 3 ∧
      (externalCalls (unregisterTimes attachedDirty 3).2 =
          [Call.OH_NativeImage_UnsetOnFrameAvailableListener attachedDirty.native_image_,
           Call.OH_NativeImage_Destroy attachedDirty.native_image_] ∧
        (unregisterTimes attachedDirty 3).1 = attachedDirty.OnTextureUnregistered.1) :=
  ⟨by decide, by decide,
    OnTextureUnregistered_idempotent attachedDirty 3 (by decide) (by decide)⟩

/-! ### Sequences of calls -/

/-- C1, as the code has it: for every finite sequence of calls on a freshly constructed
adapter (any of `Paint`, `OnGrContextCreated`, `OnGrContextDestroyed` and the other calls) in
which no `OnGrContextCreated` arrives while the adapter is attached, ended by the destructor,
the `glGenTextures` and `glDeleteTextures` calls of the trace are paired: their numbers are
equal, and after every initial part of the trace the releases do not exceed the allocations
and at most one allocated name is not yet released. -/
theorem lifetime_paired (id : Int) (native_image : Option Nat) (ops : List Op)
    (hcreate : noCreateWhileAttached (OHOSExternalTextureGL.new id native_image) ops = true) :
    allocations (lifetime id native_image ops true) =
        releases (lifetime id native_image ops true) ∧
      ∀ pre, pre <+: lifetime id native_image ops true →
        releases pre ≤ allocations pre ∧ allocations pre ≤ releases pre + 1 := by
  have h := run_balanced ops (OHOSExternalTextureGL.new id native_image) hcreate
  have hl : live (OHOSExternalTextureGL.new id native_image) = 0 := rfl
  simp only [hl, Nat.zero_add] at h
  simpa only [lifetime, if_true] using h

/-- Witness for `lifetime_paired`: the sequence `contextCycle`. -/
theorem lifetime_paired_witness :
    noCreateWhileAttached (OHOSExternalTextureGL.new 7 (some 1)) contextCycle = true ∧
      (allocations (lifetime 7 (some 1) contextCycle true) =
          releases (lifetime 7 (some 1) contextCycle true) ∧
        ∀ pre, pre <+: lifetime 7 (some 1) contextCycle true →
          releases pre ≤ allocations pre ∧ allocations pre ≤ releases pre + 1) :=
  ⟨by decide, lifetime_paired 7 (some 1) contextCycle (by decide)⟩

/-- C1 fails as stated: `recreateWhileAttached` uses only `Paint`, `OnGrContextCreated` and
`OnGrContextDestroyed`; with the destructor at the end its trace has two `glGenTextures`
calls and one `glDeleteTextures` call, and once the second paint has allocated, two names
are allocated and not released. -/
theorem recreate_while_attached_leaks :
    recreateWhileAttached.all Op.isContextCall = true ∧
      allocations (lifetime 7 (some 1) recreateWhileAttached true) = 2 ∧
      releases (lifetime 7 (some 1) recreateWhileAttached true) = 1 ∧
      ¬ (allocations (lifetime 7 (some 1) recreateWhileAttached true) =
          releases (lifetime 7 (some 1) recreateWhileAttached true)) ∧
      allocations (lifetime 7 (some 1) recreateWhileAttached false) = 2 ∧
      releases (lifetime 7 (some 1) recreateWhileAttached false) = 0 := by
  decide

/-- C7, as the code has it: in every state reached from a freshly constructed adapter by any
sequence of the six calls in which `glGenTextures` writes non-zero names,
* `texture_name_` is the name written by the last `glGenTextures` call of the trace, and `0`
  when there was none: it is `0` until the first allocation and is never reset afterwards,
  whatever the state;
* a non-zero `texture_name_` means a `glGenTextures` call is in the trace;
* as long as no `OnGrContextCreated` or `OnGrContextDestroyed` has arrived while attached, a
  non-zero `texture_name_` implies `state_ == attached`;
* an attached adapter has a non-zero `texture_name_`. -/
theorem texture_name_tracks_last_allocation (id : Int) (native_image : Option Nat)
    (ops : List Op) (hgen : ops.all Op.genNonZero = true) :
    (run (OHOSExternalTextureGL.new id native_image) ops).1.texture_name_ =
        lastGenName 0 (run (OHOSExternalTextureGL.new id native_image) ops).2 ∧
      ((run (OHOSExternalTextureGL.new id native_image) ops).1.texture_name_ ≠ 0 →
        allocations (run (OHOSExternalTextureGL.new id native_image) ops).2 ≠ 0) ∧
      (noContextCallWhileAttached (OHOSExternalTextureGL.new id native_image) ops = true →
        (run (OHOSExternalTextureGL.new id native_image) ops).1.texture_name_ ≠ 0 →
        (run (OHOSExternalTextureGL.new id native_image) ops).1.state_
          = AttachmentState.attached) ∧
      ((run (OHOSExternalTextureGL.new id native_image) ops).1.state_
          = AttachmentState.attached →
        (run (OHOSExternalTextureGL.new id native_image) ops).1.texture_name_ ≠ 0) := by
  have hlast := run_lastGenName ops (OHOSExternalTextureGL.new id native_image)
  have hzero : ∀ tr : List Call, allocations tr = 0 → lastGenName 0 tr = 0 := by
    intro tr
    induction tr with
    | nil => intro _; rfl
    | cons c t ih =>
      intro h
      cases c <;> simp_all [allocations, lastGenName, Call.isGen, List.countP_cons]
  refine ⟨hlast, fun hne hal => hne ?_, fun hstay => ?_, ?_⟩
  · rw [hlast]
    exact hzero _ hal
  · exact run_nonzero_attached ops (OHOSExternalTextureGL.new id native_image) hstay
      (fun h => absurd rfl h)
  · exact run_attached_nonzero ops (OHOSExternalTextureGL.new id native_image) hgen
      (fun h => by cases h)

/-- Witness for `texture_name_tracks_last_allocation`: the sequence `singleContext`, in which
no context call arrives while attached and which ends attached with the name 5. -/
theorem texture_name_tracks_last_allocation_witness :
    singleContext.all Op.genNonZero = true ∧
      noContextCallWhileAttached (OHOSExternalTextureGL.new 7 (some 1)) singleContext = true ∧
      (run (OHOSExternalTextureGL.new 7 (some 1)) singleContext).1.texture_name_ = 5 ∧
      (run (OHOSExternalTextureGL.new 7 (some 1)) singleContext).1.state_
        = AttachmentState.attached ∧
      ((run (OHOSExternalTextureGL.new 7 (some 1)) singleContext).1.texture_name_ =
          lastGenName 0 (run (OHOSExternalTextureGL.new 7 (some 1)) singleContext).2 ∧
        ((run (OHOSExternalTextureGL.new 7 (some 1)) singleContext).1.texture_name_ ≠ 0 →
          allocations (run (OHOSExternalTextureGL.new 7 (some 1)) singleContext).2 ≠ 0) ∧
        (noContextCallWhileAttached (OHOSExternalTextureGL.new 7 (some 1)) singleContext = true →
          (run (OHOSExternalTextureGL.new 7 (some 1)) singleContext).1.texture_name_ ≠ 0 →
          (run (OHOSExternalTextureGL.new 7 (some 1)) singleContext).1.state_
            = AttachmentState.attached) ∧
        ((run (OHOSExternalTextureGL.new 7 (some 1)) singleContext).1.state_
            = AttachmentState.attached →
          (run (OHOSExternalTextureGL.new 7 (some 1)) singleContext).1.texture_name_ ≠ 0)) :=
  ⟨by decide, by decide, by decide, by decide,
    texture_name_tracks_last_allocation 7 (some 1) singleContext (by decide)⟩

/-- C7 fails as stated: after a paint that allocated the non-zero name 5 and a context
destruction, the adapter is detached and `texture_name_` is still 5. -/
theorem stale_name_after_destroy :
    paintThenDestroy.all Op.genNonZero = true ∧
      (run (OHOSExternalTextureGL.new 7 (some 1)) paintThenDestroy).1.state_
        = AttachmentState.detached ∧
      (run (OHOSExternalTextureGL.new 7 (some 1)) paintThenDestroy).1.texture_name_ = 5 ∧
      ¬ ((run (OHOSExternalTextureGL.new 7 (some 1)) paintThenDestroy).1.texture_name_ ≠ 0 →
          (run (OHOSExternalTextureGL.new 7 (some 1)) paintThenDestroy).1.state_
            = AttachmentState.attached) := by
  decide

/-- C10: for every finite sequence of calls on a freshly constructed adapter, with or without
the destructor at the end, when the names written by `glGenTextures` in the trace are
pairwise distinct, every `glDeleteTextures n` in the trace comes after a `glGenTextures n`
and after no earlier `glDeleteTextures n`. -/
theorem releases_target_live_names (id : Int) (native_image : Option Nat) (ops : List Op)
    (destroyed : Bool) (hfresh : (genNames (lifetime id native_image ops destroyed)).Nodup) :
    ∀ pre n post, lifetime id native_image ops destroyed = pre ++ Call.glDeleteTextures n :: post →
      Call.glGenTextures n ∈ pre ∧ Call.glDeleteTextures n ∉ pre := by
  intro pre n post hsplit
  have hv := run_releasesValid ops destroyed (OHOSExternalTextureGL.new id native_image) [] []
    (fun h => by cases h) (fun n hn => by cases hn) hfresh (fun n _ => by simp)
  obtain ⟨h1, _, h3⟩ := releasesValid_sound _ [] [] hv pre n post hsplit
  exact ⟨by simpa using h1, h3⟩

/-- Witness for `releases_target_live_names`: the sequence `twoContexts` followed by the
destructor, whose trace allocates the names 5 and 6. -/
theorem releases_target_live_names_witness :
    (genNames (lifetime 7 (some 1) twoContexts true)).Nodup ∧
      ∀ pre n post,
        lifetime 7 (some 1) twoContexts true = pre ++ Call.glDeleteTextures n :: post →
          Call.glGenTextures n ∈ pre ∧ Call.glDeleteTextures n ∉ pre :=
  ⟨by simp [lifetime, twoContexts, run, genNames_append, genNames_apply, apply_state_,
      genNames_destructor, envOk],
    releases_target_live_names 7 (some 1) twoContexts true
      (by simp [lifetime, twoContexts, run, genNames_append, genNames_apply, apply_state_,
        genNames_destructor, envOk])⟩

end flutter
